import Mathlib

/-!
Shallow embedding of the error taxonomy and allocation helpers of the
sdc-napi repository (lib/util/errors.js, test/unit/helpers.js), together
with proofs of the specified properties.

JavaScript objects in the errors arrays are embedded as Lean structures
whose fields mirror the keys the source actually writes; a key that a
given object shape may or may not carry is an Option, with none standing
for an absent key (JavaScript property access on an absent key yields
undefined).  Addresses are embedded as naturals.  JavaScript
Array.prototype.sort with a comparator is embedded as a stable sort that
places a before b whenever the comparator returns a nonpositive value;
for a consistent comparator every stable sort produces that same unique
output, so this models the engine exactly.
-/

/-- A network object as consumed by the error helpers: only its uuid key
is read by networkOverlapParams and nictagMtuInvalidForNetworks. -/
structure NetRef where
  uuid : String
deriving DecidableEq, Repr

/-- Result object of usedBy and usedByParam in errors.js: keys type, id,
code, message, and (set only by usedByParam) field. -/
structure UsedByErr where
  type : String
  id : String
  code : String
  message : String
  field : Option String
deriving DecidableEq, Repr

/-- The extra argument of invalidParam and unknownParams: the only extra
keys the embedded call sites pass are uuid (nictagMtuInvalidForNetworks)
and, potentially, id; absent keys are none. -/
structure Extra where
  uuid : Option String
  id : Option String
deriving DecidableEq, Repr

/-- Result object of invalidParam, duplicateParam and missingParam in
errors.js: keys field, code, message, plus any keys copied from the
extra argument (uuid, id). -/
structure InvalidParamErr where
  field : String
  code : String
  message : String
  uuid : Option String
  id : Option String
deriving DecidableEq, Repr

/-- Result object of unknownParams in errors.js: its field key holds the
array of parameter names rather than a single string. -/
structure UnknownParamsErr where
  field : List String
  code : String
  message : String
  uuid : Option String
  id : Option String
deriving DecidableEq, Repr

/-- Models JavaScript Array.prototype.sort with a comparator cmp: a
stable sort that places a no later than b whenever cmp a b is
nonpositive.  List.insertionSort as used here is stable, so for a
consistent comparator it computes exactly the array produced by the
engine. -/
def jsSort {α : Type} (cmp : α → α → Int) (l : List α) : List α :=
  List.insertionSort (fun a b => cmp a b ≤ 0) l

/-- sortById from errors.js: compares the id property of two objects.
The idOf projection models the JavaScript property access a.id, yielding
none when the key is absent (undefined); in JavaScript both undefined
comparisons are false, so the comparator then returns 0. -/
def sortById {α : Type} (idOf : α → Option String) (a b : α) : Int :=
  match idOf a, idOf b with
  | some x, some y => if x < y then -1 else if x > y then 1 else 0
  | _, _ => 0

/-- Modelled from the spec: constants.msg.INVALID_PARAMS of
lib/util/constants.js is not part of the visible source; only the
default-message fallback shape matters to the stated properties, not the
exact text. -/
def INVALID_PARAMS : String := "Invalid parameters"

/-- invalidParam from errors.js: builds a field, code InvalidParameter,
message object and copies over the keys of the optional extra object. -/
def invalidParam (field : String) (message : Option String) (extra : Option Extra) :
    InvalidParamErr :=
  let param : InvalidParamErr :=
    { field := field, code := "InvalidParameter",
      message := message.getD INVALID_PARAMS, uuid := none, id := none }
  match extra with
  | none => param
  | some e => { param with uuid := e.uuid, id := e.id }

/-- Modelled from the spec: constants.msg.UNKNOWN_PARAMS of
lib/util/constants.js is not part of the visible source; its exact text
does not affect the stated properties. -/
def UNKNOWN_PARAMS : String := "Unknown parameters"

/-- unknownParams from errors.js: code UnknownParameters, field holding
the whole params array, message the default or given message followed by
the comma-and-space-joined params, extra keys copied over. -/
def unknownParams (params : List String) (message : Option String) (extra : Option Extra) :
    UnknownParamsErr :=
  let msg := (message.getD UNKNOWN_PARAMS) ++ ": " ++ String.intercalate ", " params
  let param : UnknownParamsErr :=
    { field := params, code := "UnknownParameters", message := msg,
      uuid := none, id := none }
  match extra with
  | none => param
  | some e => { param with uuid := e.uuid, id := e.id }

/-- usedBy from errors.js: type, id, code UsedBy, and a default message
rendered by util.format with the type and id interpolated. -/
def usedBy (type id : String) (message : Option String) : UsedByErr :=
  { type := type, id := id, code := "UsedBy",
    message := message.getD ("In use by " ++ type ++ " \"" ++ id ++ "\""),
    field := none }

/-- usedByParam from errors.js: a usedBy object with the field key
added. -/
def usedByParam (field type id : String) (message : Option String) : UsedByErr :=
  let paramErr := usedBy type id message
  { paramErr with field := some field }

/-- networkOverlapParams from errors.js: one usedByParam object per
conflicting network, sorted with sortById (the objects carry their
conflicting network uuid in the id key). -/
def networkOverlapParams (nets : List NetRef) : List UsedByErr :=
  jsSort (sortById (fun e => some e.id))
    (nets.map fun net =>
      usedByParam "subnet" "network" net.uuid (some "subnet overlaps with another network"))

/-- nictagMtuInvalidForNetworks from errors.js: one invalidParam object
per offending network (field mtu, extra carrying the uuid key), then
sorted with sortById.  Note the objects produced by invalidParam carry
the network uuid under the uuid key and have no id key, so the sortById
comparator compares two absent properties. -/
def nictagMtuInvalidForNetworks (nets : List NetRef) : List InvalidParamErr :=
  jsSort (sortById (fun e => e.id))
    (nets.map fun net =>
      invalidParam "mtu" (some "nic_tag mtu must be greater than its networks")
        (some { uuid := some net.uuid, id := none }))

/-- sortErrsByField from errors.js, on error objects whose field key
holds a string (every object the embedded producers put in an errors
array except unknownParams): sorts by the field key with the inline
comparator of the source. -/
def sortErrsByField (errs : List InvalidParamErr) : List InvalidParamErr :=
  jsSort (fun a b => if a.field < b.field then -1 else if a.field > b.field then 1 else 0)
    errs

/-- An opaque stand-in for an arbitrary JavaScript cause object handed to
InternalError. -/
structure Cause where
  payload : String
deriving DecidableEq, Repr

/-- The body object handed to the restify error constructors in
errors.js: a code, a message, and whichever of the errors array and
network_uuid keys the particular class sets. -/
structure ErrBody where
  code : String
  message : String
  errors : Option (List InvalidParamErr)
  network_uuid : Option String
deriving DecidableEq, Repr

/-- A constructed restify-derived error value: the HTTP statusCode and
restCode of the options object, the message, the retained cause, the
response body, and the instance properties the errors.js constructors
set on top (name, network_uuid, pool_uuid, stop); absent properties are
none. -/
structure RestErr where
  statusCode : Nat
  restCode : String
  message : String
  cause : Option Cause
  body : ErrBody
  name : Option String
  network_uuid : Option String
  pool_uuid : Option String
  stop : Option Bool
deriving DecidableEq, Repr

/-- MSG.internal from errors.js. -/
def MSG_internal : String := "Internal error"

/-- InternalError from errors.js.  assert.object(cause) throws when the
cause argument is absent (or not an object), modelled by the none
branch; otherwise the restify InternalServerError call is made, whose
HTTP error class carries status 500 (restify is an external dependency;
the 500 matches the status the spec names for InternalError). -/
def InternalError (cause : Option Cause) (message : Option String) : Option RestErr :=
  match cause with
  | none => none
  | some c =>
    let msg := message.getD MSG_internal
    some { statusCode := 500, restCode := "InternalError", message := msg,
           cause := some c,
           body := { code := "InternalError", message := msg,
                     errors := none, network_uuid := none },
           name := none, network_uuid := none, pool_uuid := none, stop := none }

/-- InvalidParamsError from errors.js: restify RestError with restCode
InvalidParameters and an explicit statusCode of 422. -/
def InvalidParamsError (message : String) (errors : List InvalidParamErr) : RestErr :=
  { statusCode := 422, restCode := "InvalidParameters", message := message,
    cause := none,
    body := { code := "InvalidParameters", message := message,
              errors := some errors, network_uuid := none },
    name := some "InvalidParamsError", network_uuid := none, pool_uuid := none,
    stop := none }

/-- InUseError from errors.js: restify InvalidArgumentError call with an
explicit statusCode of 422 and restCode InUse. -/
def InUseError (message : String) (errors : List InvalidParamErr) : RestErr :=
  { statusCode := 422, restCode := "InUse", message := message,
    cause := none,
    body := { code := "InUse", message := message,
              errors := some errors, network_uuid := none },
    name := some "InUseError", network_uuid := none, pool_uuid := none,
    stop := none }

/-- Modelled from the spec: constants.SUBNET_FULL_MSG of
lib/util/constants.js is not part of the visible source; its exact text
does not affect the stated properties. -/
def SUBNET_FULL_MSG : String := "No more free IPs"

/-- SubnetFullError from errors.js: restify RestError with restCode
SubnetFull, explicit statusCode 507, the network_uuid both in the body
and as an instance property, and stop set to true. -/
def SubnetFullError (network_uuid : String) : RestErr :=
  { statusCode := 507, restCode := "SubnetFull", message := SUBNET_FULL_MSG,
    cause := none,
    body := { code := "SubnetFull", message := SUBNET_FULL_MSG,
              errors := none, network_uuid := some network_uuid },
    name := some "SubnetFullError", network_uuid := some network_uuid,
    pool_uuid := none, stop := some true }

/-- Modelled from the spec: constants.SUBNETS_EXHAUSTED_MSG of
lib/util/constants.js is not part of the visible source; its exact text
does not affect the stated properties. -/
def SUBNETS_EXHAUSTED_MSG : String := "all subnets are exhausted"

/-- SubnetsExhaustedError from errors.js: restify RestError with
restCode SubnetsExhausted, explicit statusCode 507, stop set to true. -/
def SubnetsExhaustedError : RestErr :=
  { statusCode := 507, restCode := "SubnetsExhausted",
    message := SUBNETS_EXHAUSTED_MSG,
    cause := none,
    body := { code := "SubnetsExhausted", message := SUBNETS_EXHAUSTED_MSG,
              errors := none, network_uuid := none },
    name := some "SubnetsExhaustedError", network_uuid := none,
    pool_uuid := none, stop := some true }

/-- Modelled from the spec: util.format(constants.fmt.POOL_FULL_MSG,
pool_uuid); constants.js is not part of the visible source and the exact
text does not affect the stated properties. -/
def poolFullMsg (pool_uuid : String) : String :=
  "all networks in pool " ++ pool_uuid ++ " are full"

/-- PoolFullError from errors.js: delegates to InvalidParamsError with
the message Invalid parameters and a single invalidParam element, then
sets pool_uuid and initializes stop to false (the allocation loop later
flips it to true once all intersections are exhausted). -/
def PoolFullError (field pool_uuid : String) : RestErr :=
  let msg := poolFullMsg pool_uuid
  let base := InvalidParamsError "Invalid parameters" [invalidParam field (some msg) none]
  { base with pool_uuid := some pool_uuid, stop := some false }

/-- Modelled from the spec: the pool allocation loop of the allocation
engine (section 4.3) is not part of the visible source; only
PoolFullError and the comment on its stop flag are.  The loop iterates
the pool members in priority order, attempting an allocation from each;
it succeeds with the first allocated address, and once every member has
been tried and failed it returns the PoolFullError with its stop flag
flipped to true. -/
def allocatePoolGo (err : RestErr) (attempt : String → Option Nat) :
    List String → Except RestErr Nat
  | [] => Except.error { err with stop := some true }
  | m :: rest =>
    match attempt m with
    | some ip => Except.ok ip
    | none => allocatePoolGo err attempt rest

/-- Modelled from the spec: allocatePool of section 4.3; constructs the
PoolFullError (stop initially false) and runs the member loop. -/
def allocatePool (field pool_uuid : String) (members : List String)
    (attempt : String → Option Nat) : Except RestErr Nat :=
  allocatePoolGo (PoolFullError field pool_uuid) attempt members

/-- A network as consumed by the modelled allocation engine: its uuid
and the inclusive provisioning range, with addresses as naturals. -/
structure AllocNet where
  uuid : String
  provision_start_ip : Nat
  provision_end_ip : Nat
deriving DecidableEq, Repr

/-- Modelled from the spec: the scan order of the allocation engine
(section 4.3 step 2): forward from the candidate start address to
provision_end_ip, then wrapping back to provision_start_ip and up to
just before the candidate. -/
def scanOrder (net : AllocNet) (cand : Nat) : List Nat :=
  List.range' cand (net.provision_end_ip + 1 - cand) ++
    List.range' net.provision_start_ip (cand - net.provision_start_ip)

/-- Modelled from the spec: allocate of section 4.3, which is not part
of the visible source.  The free predicate stands for the condition that
no non-free IP record exists for the address and that the conditional
write would win; taking the first scanned address passing it captures
the single bounded full-range traversal with retry-from-next.  When the
scan exhausts the range the engine fails with SubnetFullError. -/
def allocate (net : AllocNet) (cand : Nat) (exclude free : Nat → Bool) :
    Except RestErr Nat :=
  match (scanOrder net cand).find? (fun a => !exclude a && free a) with
  | some a => Except.ok a
  | none => Except.error (SubnetFullError net.uuid)

/-- Modelled from the spec: a sequence of allocation requests against
one network, each with its own candidate start address, where every
successful allocation makes that address non-free for the later
requests. -/
def runAllocs (net : AllocNet) (exclude : Nat → Bool) :
    List Nat → List Nat → List (Except RestErr Nat)
  | _, [] => []
  | allocated, cand :: rest =>
    match allocate net cand exclude (fun a => !(allocated.contains a)) with
    | Except.ok a => Except.ok a :: runAllocs net exclude (a :: allocated) rest
    | Except.error e => Except.error e :: runAllocs net exclude allocated rest

/-- Modelled from the spec: util_ip.ipAddrPlus of lib/util/ip.js
(section 4.1 increment), with addresses embedded as naturals. -/
def ipAddrPlus (ip n : Nat) : Nat := ip + n

/-- A network object as consumed by nextProvisionableIP in
test/unit/helpers.js: its uuid and provision_start_ip (already parsed to
an address, since util_ip.toIPAddr is outside the visible source). -/
structure TestNet where
  uuid : String
  provision_start_ip : Nat
deriving DecidableEq, Repr

/-- The current next-provisionable address of a network under the
NET_IPS tracker state: the tracked address, or provision_start_ip when
the network has no entry yet. -/
def currIP (netIps : String → Option Nat) (net : TestNet) : Nat :=
  match netIps net.uuid with
  | none => net.provision_start_ip
  | some ip => ip

/-- nextProvisionableIP from test/unit/helpers.js, with the NET_IPS
module state passed and returned explicitly: installs
provision_start_ip for a network not yet tracked, reads the current
address, advances the tracker by one unless willFail is set, and returns
the current address (the source renders it with toString; the embedding
returns the address value itself). -/
def nextProvisionableIP (netIps : String → Option Nat) (net : TestNet)
    (willFail : Bool) : Nat × (String → Option Nat) :=
  let curr := currIP netIps net
  if willFail then
    (curr, fun u => if u = net.uuid then some curr else netIps u)
  else
    (curr, fun u => if u = net.uuid then some (ipAddrPlus curr 1) else netIps u)

/-- Comparing two strings with the three-way comparator pattern of
errors.js yields a nonpositive value exactly when the first is at most
the second. -/
theorem strCmp_le (x y : String) :
    ((if x < y then (-1 : Int) else if x > y then 1 else 0) ≤ 0) ↔ x ≤ y := by
  split_ifs with h1 h2
  · exact iff_of_true (by norm_num) (le_of_lt h1)
  · exact iff_of_false (by norm_num) (not_le.mpr h2)
  · exact iff_of_true le_rfl (le_of_not_lt h2)

/-- jsSort output is a permutation of its input. -/
theorem jsSort_perm {α : Type} (cmp : α → α → Int) (l : List α) :
    (jsSort cmp l).Perm l :=
  List.perm_insertionSort _ l

/-- When a comparator is nonpositive exactly when a string key is
nondecreasing, jsSort output is sorted by that key. -/
theorem jsSort_sorted_key {α : Type} (key : α → String) (cmp : α → α → Int)
    (hcmp : ∀ a b, (cmp a b ≤ 0) ↔ key a ≤ key b) (l : List α) :
    List.Sorted (fun a b => key a ≤ key b) (jsSort cmp l) := by
  have htot : ∀ a b : α, (cmp a b ≤ 0) ∨ (cmp b a ≤ 0) := by
    intro a b
    rcases le_total (key a) (key b) with h | h
    · exact Or.inl ((hcmp a b).mpr h)
    · exact Or.inr ((hcmp b a).mpr h)
  have htrans : ∀ a b c : α, (cmp a b ≤ 0) → (cmp b c ≤ 0) → (cmp a c ≤ 0) := by
    intro a b c hab hbc
    exact (hcmp a c).mpr (le_trans ((hcmp a b).mp hab) ((hcmp b c).mp hbc))
  haveI : IsTotal α (fun a b => cmp a b ≤ 0) := ⟨htot⟩
  haveI : IsTrans α (fun a b => cmp a b ≤ 0) := ⟨fun a b c => htrans a b c⟩
  have hs := List.sorted_insertionSort (fun a b => cmp a b ≤ 0) l
  exact hs.imp (fun h => (hcmp _ _).mp h)

/-- C1: for every constructed error value, the HTTP status code matches
its kind: InvalidParamsError, InUseError and PoolFullError carry status
422; SubnetFullError and SubnetsExhaustedError carry status 507;
InternalError carries status 500. -/
theorem error_status_codes (c : Cause) (m : Option String) (msg : String)
    (errs : List InvalidParamErr) (u f pu : String) :
    (InternalError (some c) m).map (fun e => e.statusCode) = some 500 ∧
    (InvalidParamsError msg errs).statusCode = 422 ∧
    (InUseError msg errs).statusCode = 422 ∧
    (SubnetFullError u).statusCode = 507 ∧
    SubnetsExhaustedError.statusCode = 507 ∧
    (PoolFullError f pu).statusCode = 422 :=
  ⟨rfl, rfl, rfl, rfl, rfl, rfl⟩

/-- C2 counterexample: at a one-network input, the object produced by
networkOverlapParams carries code UsedBy, not code InvalidParameter as
the claim states (invalidParam is the producer of code InvalidParameter
objects, and networkOverlapParams does not use it). -/
theorem networkOverlapParams_code_counterexample :
    (networkOverlapParams [⟨"8c8cbb0c-0000-4000-8000-000000000001"⟩]).map
      (fun e => e.code) = ["UsedBy"] ∧
    ("UsedBy" : String) ≠ "InvalidParameter" :=
  ⟨rfl, by decide⟩

/-- C2 (amended): for every list of conflicting networks, the overlap
check produces exactly one UsedBy-style error object per conflicting
network (code UsedBy, type network), each with field subnet and carrying
that network uuid in its id key, and the returned array is sorted
lexicographically ascending by the conflicting network uuid. -/
theorem networkOverlapParams_spec (nets : List NetRef) :
    (networkOverlapParams nets).Perm
      (nets.map fun net =>
        ({ type := "network", id := net.uuid, code := "UsedBy",
           message := "subnet overlaps with another network",
           field := some "subnet" } : UsedByErr)) ∧
    List.Sorted (fun a b : UsedByErr => a.id ≤ b.id) (networkOverlapParams nets) := by
  constructor
  · exact jsSort_perm _ _
  · exact jsSort_sorted_key (fun e : UsedByErr => e.id) _
      (fun a b : UsedByErr => strCmp_le a.id b.id) _

/-- C3 (the code evaluated at the failing input): with the offending
networks given in the order uuid b then uuid a, the returned array keeps
that order rather than sorting it ascending, because sortById compares
the id key that invalidParam never sets (the uuid is stored under the
uuid key), so the comparator always returns 0; the per-element content
(field mtu, code InvalidParameter, uuid extra) is as the claim says. -/
theorem nictagMtuInvalidForNetworks_failing_input :
    nictagMtuInvalidForNetworks [⟨"b"⟩, ⟨"a"⟩] =
      [{ field := "mtu", code := "InvalidParameter",
         message := "nic_tag mtu must be greater than its networks",
         uuid := some "b", id := none },
       { field := "mtu", code := "InvalidParameter",
         message := "nic_tag mtu must be greater than its networks",
         uuid := some "a", id := none }] ∧
    (nictagMtuInvalidForNetworks [⟨"b"⟩, ⟨"a"⟩]).map (fun e => e.uuid) ≠
      [some "a", some "b"] :=
  ⟨rfl, by decide⟩

/-- An allocatePoolGo run that fails did set the stop flag and did try
every member without success. -/
theorem allocatePoolGo_error {err : RestErr} {attempt : String → Option Nat} :
    ∀ {members : List String} {e : RestErr},
      allocatePoolGo err attempt members = Except.error e →
      e = { err with stop := some true } ∧
        members.all (fun m => (attempt m).isNone) = true := by
  intro members
  induction members with
  | nil =>
    intro e h
    injection h with h
    exact ⟨h.symm, rfl⟩
  | cons m rest ih =>
    intro e h
    unfold allocatePoolGo at h
    cases hm : attempt m with
    | some ip => rw [hm] at h; cases h
    | none =>
      rw [hm] at h
      obtain ⟨h1, h2⟩ := ih h
      refine ⟨h1, ?_⟩
      simp [List.all_cons, hm, h2]

/-- C4: for every field name and pool uuid, a newly constructed
PoolFullError carries pool_uuid equal to that uuid and stop equal to
false; and when the modelled pool allocation loop fails, the error it
returns has stop true and every pool member was tried (its attempt
returned none). -/
theorem poolFullError_stop (field pool_uuid : String) (members : List String)
    (attempt : String → Option Nat) (e : RestErr)
    (h : allocatePool field pool_uuid members attempt = Except.error e) :
    (PoolFullError field pool_uuid).pool_uuid = some pool_uuid ∧
    (PoolFullError field pool_uuid).stop = some false ∧
    e.stop = some true ∧
    members.all (fun m => (attempt m).isNone) = true := by
  obtain ⟨he, hall⟩ := allocatePoolGo_error h
  exact ⟨rfl, rfl, by rw [he], hall⟩

/-- C4 witness: the loop over one untriable member yields the stop-true
error, while the freshly constructed error has stop false. -/
theorem poolFullError_stop_witness :
    (PoolFullError "network_uuid" "7a06d4a0-0000-4000-8000-000000000002").pool_uuid =
      some "7a06d4a0-0000-4000-8000-000000000002" ∧
    (PoolFullError "network_uuid" "7a06d4a0-0000-4000-8000-000000000002").stop =
      some false ∧
    RestErr.stop { PoolFullError "network_uuid" "7a06d4a0-0000-4000-8000-000000000002" with
      stop := some true } = some true ∧
    (["6e2fb550-0000-4000-8000-000000000003"] : List String).all
      (fun m => ((fun _ : String => (none : Option Nat)) m).isNone) = true :=
  poolFullError_stop "network_uuid" "7a06d4a0-0000-4000-8000-000000000002"
    ["6e2fb550-0000-4000-8000-000000000003"] (fun _ => none) _ rfl

/-- C5: for every network uuid, a newly constructed SubnetFullError
carries code SubnetFull (as restCode and in its body), the network uuid
both as a property and in its body, and its stop flag is true at
construction. -/
theorem subnetFullError_spec (u : String) :
    (SubnetFullError u).restCode = "SubnetFull" ∧
    (SubnetFullError u).body.code = "SubnetFull" ∧
    (SubnetFullError u).network_uuid = some u ∧
    (SubnetFullError u).body.network_uuid = some u ∧
    (SubnetFullError u).stop = some true :=
  ⟨rfl, rfl, rfl, rfl, rfl⟩

/-- C6: for every non-empty list of unrecognized parameter names,
unknownParams returns an object with code UnknownParameters whose
message is the default or given message followed by a colon-space and
the comma-and-space-joined names in the order given. -/
theorem unknownParams_spec (params : List String) (message : Option String)
    (extra : Option Extra) (hne : params ≠ []) :
    (unknownParams params message extra).code = "UnknownParameters" ∧
    (unknownParams params message extra).message =
      (message.getD UNKNOWN_PARAMS) ++ (": " ++ String.intercalate ", " params) := by
  have hmsg : (unknownParams params message extra).message =
      (message.getD UNKNOWN_PARAMS) ++ ": " ++ String.intercalate ", " params := by
    cases extra <;> rfl
  refine ⟨?_, ?_⟩
  · cases extra <;> rfl
  · rw [hmsg, String.append_assoc]

/-- C6 witness: two concrete parameter names. -/
theorem unknownParams_spec_witness :
    (unknownParams ["foo", "bar"] none none).code = "UnknownParameters" ∧
    (unknownParams ["foo", "bar"] none none).message =
      ((none : Option String).getD UNKNOWN_PARAMS) ++
        (": " ++ String.intercalate ", " ["foo", "bar"]) :=
  unknownParams_spec ["foo", "bar"] none none (by decide)

/-- C7: for every array of error objects whose field values are strings,
sortErrsByField returns a permutation of the input that is nondecreasing
in lexicographic order of the field values; the embedding is a pure
function of the input list, so the order is deterministic. -/
theorem sortErrsByField_spec (errs : List InvalidParamErr) :
    (sortErrsByField errs).Perm errs ∧
    List.Sorted (fun a b : InvalidParamErr => a.field ≤ b.field)
      (sortErrsByField errs) := by
  constructor
  · exact jsSort_perm _ _
  · exact jsSort_sorted_key (fun e : InvalidParamErr => e.field) _
      (fun a b : InvalidParamErr => strCmp_le a.field b.field) _

/-- C8: for every cause object and optional message, InternalError
retains the cause; when the message is omitted it presents the generic
message Internal error with body code InternalError; and constructing an
InternalError without a cause object fails. -/
theorem internalError_spec (c : Cause) (m : Option String) :
    (InternalError (some c) m).map (fun e => e.cause) = some (some c) ∧
    (InternalError (some c) none).map (fun e => e.message) = some "Internal error" ∧
    (InternalError (some c) none).map (fun e => e.body.code) = some "InternalError" ∧
    InternalError none m = none :=
  ⟨rfl, rfl, rfl, rfl⟩

/-- Every address in the wrap-around scan order lies inside the
inclusive provisioning range, provided the candidate start does. -/
theorem scanOrder_bounds {net : AllocNet} {cand a : Nat}
    (hc1 : net.provision_start_ip ≤ cand) (hc2 : cand ≤ net.provision_end_ip)
    (ha : a ∈ scanOrder net cand) :
    net.provision_start_ip ≤ a ∧ a ≤ net.provision_end_ip := by
  unfold scanOrder at ha
  rcases List.mem_append.mp ha with h | h
  · rw [List.mem_range'_1] at h
    omega
  · rw [List.mem_range'_1] at h
    omega

/-- A successful single allocation returns an address inside the
inclusive provisioning range. -/
theorem allocate_ok_in_range {net : AllocNet} {cand : Nat}
    {exclude free : Nat → Bool} {a : Nat}
    (hc1 : net.provision_start_ip ≤ cand) (hc2 : cand ≤ net.provision_end_ip)
    (h : allocate net cand exclude free = Except.ok a) :
    net.provision_start_ip ≤ a ∧ a ≤ net.provision_end_ip := by
  unfold allocate at h
  cases hf : (scanOrder net cand).find? (fun x => !exclude x && free x) with
  | none => rw [hf] at h; cases h
  | some b =>
    rw [hf] at h
    injection h with hb
    subst hb
    exact scanOrder_bounds hc1 hc2 (List.mem_of_find?_eq_some hf)

/-- C9: for every valid network configuration and every sequence of
allocation requests whose candidate start addresses lie in the
provisioning range, the modelled allocation engine never returns an
address outside the inclusive range from provision_start_ip to
provision_end_ip. -/
theorem runAllocs_in_range (net : AllocNet) (exclude : Nat → Bool)
    (allocated cands : List Nat)
    (hv : net.provision_start_ip ≤ net.provision_end_ip)
    (hc : cands.all (fun c => decide (net.provision_start_ip ≤ c) &&
            decide (c ≤ net.provision_end_ip)) = true) :
    (runAllocs net exclude allocated cands).all (fun r =>
      match r with
      | Except.ok a => decide (net.provision_start_ip ≤ a) &&
          decide (a ≤ net.provision_end_ip)
      | Except.error _ => true) = true := by
  clear hv
  revert hc
  induction cands generalizing allocated with
  | nil => intro hc; rfl
  | cons cand rest ih =>
    intro hc
    rw [List.all_cons, Bool.and_eq_true] at hc
    obtain ⟨hcand, hrest⟩ := hc
    rw [Bool.and_eq_true, decide_eq_true_eq, decide_eq_true_eq] at hcand
    obtain ⟨h1, h2⟩ := hcand
    cases hal : allocate net cand exclude (fun a => !(allocated.contains a)) with
    | ok a =>
      have hr := allocate_ok_in_range h1 h2 hal
      simp only [runAllocs, hal, List.all_cons]
      rw [Bool.and_eq_true]
      exact ⟨by simp [hr.1, hr.2], ih (a :: allocated) hrest⟩
    | error e =>
      simp only [runAllocs, hal, List.all_cons]
      rw [Bool.and_eq_true]
      exact ⟨rfl, ih allocated hrest⟩

/-- C9 witness: a range from 10 to 12 and five requests, more than the
range holds. -/
theorem runAllocs_in_range_witness :
    (runAllocs ⟨"fc5b7d20-0000-4000-8000-000000000004", 10, 12⟩ (fun _ => false) []
        [11, 10, 10, 10, 10]).all (fun r =>
      match r with
      | Except.ok a => decide (10 ≤ a) && decide (a ≤ 12)
      | Except.error _ => true) = true :=
  runAllocs_in_range ⟨"fc5b7d20-0000-4000-8000-000000000004", 10, 12⟩ (fun _ => false)
    [] [11, 10, 10, 10, 10] (by decide) (by decide)

/-- C10: for every network, calling nextProvisionableIP with willFail
set returns the current next provisionable address without advancing the
per-network tracker (an immediately following call for the same network
returns the same address, with either flag), whereas a call with
willFail unset returns the current address and advances the tracker for
that network by exactly one, leaving other networks untouched. -/
theorem nextProvisionableIP_spec (s : String → Option Nat) (net : TestNet) :
    (nextProvisionableIP s net true).1 = currIP s net ∧
    (nextProvisionableIP (nextProvisionableIP s net true).2 net true).1 = currIP s net ∧
    (nextProvisionableIP (nextProvisionableIP s net true).2 net false).1 = currIP s net ∧
    (nextProvisionableIP s net false).1 = currIP s net ∧
    (nextProvisionableIP s net false).2 =
      (fun u => if u = net.uuid then some (ipAddrPlus (currIP s net) 1) else s u) ∧
    (nextProvisionableIP s net true).2 =
      (fun u => if u = net.uuid then some (currIP s net) else s u) := by
  refine ⟨rfl, ?_, ?_, rfl, rfl, rfl⟩
  · simp [nextProvisionableIP, currIP]
  · simp [nextProvisionableIP, currIP]
